import Mathlib

/-
Verification of the SpongeQuant orchestration core (src/app/app.py).

The development shallowly embeds the orchestration engine: the process
runner (run_command), the artifact-existence oracle
(is_model_fully_downloaded), the parameter resolvers of the method
executors, the GGUF pipeline (quantize_gguf), the other method executors
(quantize_gptq, quantize_exllamav2, quantize_awq, quantize_hqq), the
publisher (upload_quant), and the top-level batch loop (quant_tavern_ui).

Modelling conventions:
- Python strings are Lean String values; every Python string method used
  by the source (strip, split, splitlines, replace, upper, lower,
  startswith, endswith, join) is given an explicit character-list
  definition so that universal facts can be proved by list induction.
  The tokens handled by the program are ASCII, where these definitions
  agree with Python.
- Python int(...) and float(...) are modelled by pyInt? and pyFloat?;
  a None result stands for the ValueError the Python call raises.
  float values are modelled as exact rationals (the source only ever
  parses short decimal literals such as 0.1 or 4.5); Python underscore
  digit grouping and exponent forms are outside the scope of the inputs
  the program handles and are not modelled.
- A Python generator is modelled as a Trace (the list of yielded lines
  plus the list of externally visible actions it performs) together with
  an Option String: some e means the generator body raised exception e
  after yielding those lines, none means it ran to completion.
- All interactions with the outside world (filesystem existence checks,
  the registry client, subprocesses, the optional quantization
  libraries) are collected in an Env record of oracles, matching the
  interface boundary drawn by the specification. Subprocesses are pure
  in the model: Env.run maps a command line to the terminated output
  lines, the final unterminated chunk, and the exit code.
- Actions (snapshot downloads, subprocess invocations, directory
  deletions, repository creation and uploads) are recorded in the order
  the source performs them, which lets skip/frame properties be stated
  about what the code does rather than only about what it prints.
- patch_model_config writes only to the console (print, not yield) and
  catches all its own exceptions, so it contributes nothing to a
  transcript; it is not modelled further.
-/

namespace SpongeQuant

/-! ## Python string primitives -/

/-- Python str.strip: drop leading and trailing whitespace. -/
def pyStrip (s : String) : String :=
  ⟨((s.data.dropWhile Char.isWhitespace).reverse.dropWhile Char.isWhitespace).reverse⟩

/-- Python str.split(sep) for a one-character separator: always returns at
least one (possibly empty) field. -/
def pySplitChars (sep : Char) : List Char → List (List Char)
  | [] => [[]]
  | c :: cs =>
    if c = sep then [] :: pySplitChars sep cs
    else
      match pySplitChars sep cs with
      | [] => [[c]]
      | g :: gs => (c :: g) :: gs

def pySplit (sep : Char) (s : String) : List String :=
  (pySplitChars sep s.data).map fun g => ⟨g⟩

/-- Python str.upper (ASCII). -/
def pyUpper (s : String) : String := ⟨s.data.map Char.toUpper⟩

/-- Python str.lower (ASCII). -/
def pyLower (s : String) : String := ⟨s.data.map Char.toLower⟩

/-- Python s.startswith(p). -/
def startswith (s p : String) : Bool := p.data.isPrefixOf s.data

/-- Python s.endswith(p). -/
def endswith (s p : String) : Bool := p.data.isSuffixOf s.data

/-- Python s.replace(" ", ""): remove every space character. -/
def pyRemoveSpaces (s : String) : String := ⟨s.data.filter fun c => c ≠ ' '⟩

/-- Python seq[-1] on a non-empty list (split results are never empty). -/
def pyLast (l : List String) : String := l.getLastD ""

/-- Python str.split(sep, 1): split on the first occurrence only. -/
def pySplitOnce (sep : Char) : List Char → List Char × Option (List Char)
  | [] => ([], none)
  | c :: cs =>
    if c = sep then ([], some cs)
    else
      match pySplitOnce sep cs with
      | (a, b) => (c :: a, b)

/-- os.path.join on the relative POSIX paths the program uses. -/
def pathJoin (a b : String) : String := a ++ "/" ++ b

/-- Iterating a Python str yields its characters one by one; the source
iterates the string returned by upload_quant this way. -/
def iterStr (s : String) : List String := s.data.map String.singleton

/-- Python bool rendering inside f-strings. -/
def pyBoolStr (b : Bool) : String := if b then "True" else "False"

/-! ## Numeric parsing (int(...) / float(...)) -/

def digitsVal (l : List Char) : Nat :=
  l.foldl (fun n c => 10 * n + (c.toNat - 48)) 0

def allDigits (l : List Char) : Bool := !l.isEmpty && l.all Char.isDigit

/-- Python int(s): optional sign then decimal digits (after stripping).
None models the ValueError raised on any other input. -/
def pyInt? (s : String) : Option Int :=
  match (pyStrip s).data with
  | '+' :: r => if allDigits r then some (digitsVal r) else none
  | '-' :: r => if allDigits r then some (-(digitsVal r : Int)) else none
  | r => if allDigits r then some (digitsVal r) else none

/-- Python float(s) on plain decimal literals: optional sign, then
digits, digits.digits, digits. or .digits. None models the ValueError. -/
def pyFloat? (s : String) : Option ℚ :=
  let t := (pyStrip s).data
  let signed : ℚ × List Char :=
    match t with
    | '+' :: r => (1, r)
    | '-' :: r => (-1, r)
    | r => (1, r)
  match pySplitOnce '.' signed.2 with
  | (ip, none) =>
    if allDigits ip then some (signed.1 * digitsVal ip) else none
  | (ip, some fp) =>
    if (!ip.isEmpty || !fp.isEmpty) && ip.all Char.isDigit && fp.all Char.isDigit
        && !fp.contains '.' then
      some (signed.1 * ((digitsVal ip : ℚ) + (digitsVal fp : ℚ) / (10 : ℚ) ^ fp.length))
    else none

/-- Rendering of a modelled float in transcript text. Python prints the
binary float (for example 0.1); the model prints the exact rational, an
intentional cosmetic difference no claim depends on. -/
def ratStr (q : ℚ) : String :=
  toString q.num ++ (if q.den = 1 then "" else "/" ++ toString q.den)

/-! ## Actions, traces and the environment -/

/-- Externally visible effects of the orchestrator, in program order. -/
inductive Action where
  | snapshotDownload (model_id target_dir : String)
  | runCmd (command : String)
  | rmtree (path : String)
  | createRepo (repo_id : String)
  | uploadFolder (folder repo_id : String)
deriving DecidableEq, Repr

/-- Lines yielded to the transcript plus actions performed, in order. -/
structure Trace where
  lines : List String
  acts : List Action
deriving DecidableEq, Repr

instance : Append Trace := ⟨fun a b => ⟨a.lines ++ b.lines, a.acts ++ b.acts⟩⟩

@[simp] theorem Trace.append_lines (a b : Trace) : (a ++ b).lines = a.lines ++ b.lines := rfl

@[simp] theorem Trace.append_acts (a b : Trace) : (a ++ b).acts = a.acts ++ b.acts := rfl

@[simp] theorem Trace.mk_lines (l : List String) (a : List Action) : (Trace.mk l a).lines = l := rfl

@[simp] theorem Trace.mk_acts (l : List String) (a : List Action) : (Trace.mk l a).acts = a := rfl

/-- Oracles for everything outside the orchestration core: the
filesystem, the model registry, subprocesses, and the optional
quantization libraries. An Except error result models the exception the
corresponding Python call raises; for the AWQ/GPTQ/HQQ library phases
the ok value is the list of transcript lines the phase yields. -/
structure Env where
  pathExists : String → Bool
  list_repo_files : String → Except String (List String)
  snapshot_download : String → Except String String
  run : String → List String × String × Int
  sys_executable : String
  has_transformers : Bool
  gptq_external : Except String (List String)
  awq_external : Except String (List String)
  hqq_external : Except String (List String)
  card_gen : Except String Unit
  create_repo : String → Except String Unit
  upload_folder : String → String → Except String Unit
  rmtree : String → Option String
  listdir : String → List String

/-! ## Process runner (run_command, source lines 91-107) -/

/-- The readline loop of run_command: each available line is surfaced as
soon as it is read; the loop ends when the stream is exhausted and the
process has exited. -/
def read_stream : List String → List String
  | [] => []
  | l :: ls => l :: read_stream ls

theorem read_stream_eq (ls : List String) : read_stream ls = ls := by
  induction ls with
  | nil => rfl
  | cons l ls ih => simp [read_stream, ih]

def run_debug_line (command : String) : String :=
  "[DEBUG] Executing command: " ++ command ++ "\n"

def run_error_line (code : Int) : String :=
  "[ERROR] Command returned non-zero exit code: " ++ toString code ++ "\n"

/-- run_command: stream the merged output of a shell command, flush the
final unterminated chunk, and append a synthetic diagnostic line when
the exit code is non-zero. Total by construction: it never raises. -/
def run_command (env : Env) (command : String) : Trace :=
  let out := env.run command
  ⟨run_debug_line command ::
      (read_stream out.1
        ++ (if out.2.1 ≠ "" then [out.2.1] else [])
        ++ (if out.2.2 ≠ 0 then [run_error_line out.2.2] else [])),
    [Action.runCmd command]⟩

/-! ## Command construction (build_llama_cmd, source lines 439-448) -/

/-- build_llama_cmd: a .py script runs under the Python interpreter from
the llama_cpp directory, anything else is a compiled executable under
llama_cpp/build/bin. The source writes no space between the quoted
executable path and the first argument in the non-.py branch; the model
reproduces that faithfully. -/
def build_llama_cmd (env : Env) (script_name : String) (args : List String) : String :=
  if endswith script_name ".py" then
    "\"" ++ env.sys_executable ++ "\" \"" ++ pathJoin "llama_cpp" script_name ++ "\" "
      ++ String.intercalate " " args
  else
    "\"" ++ pathJoin (pathJoin (pathJoin "llama_cpp" "build") "bin") script_name ++ "\""
      ++ String.intercalate " " args

/-! ## Importance-matrix computer (compute_imatrix_file, lines 112-142) -/

/-- The llama-imatrix command line. The source builds cmd_parts with the
tool name first and unpacks it into build_llama_cmd, so the tool name is
the script_name and the rest are the arguments. -/
def imatrix_cmd (env : Env) (model_file calibration_file imatrix_output : String)
    (process_output : Bool) (verbosity : Int) (no_ppl : Bool)
    (chunk output_frequency save_frequency : Int) (in_files : List String) (ngl : Int) :
    String :=
  build_llama_cmd env "llama-imatrix"
    (["-m", model_file, "-f", calibration_file, "-o", imatrix_output,
      "--chunk", toString chunk, "-ngl", toString ngl,
      "--output-frequency", toString output_frequency,
      "--save-frequency", toString save_frequency,
      "--verbosity", toString verbosity]
      ++ (if process_output then ["--process-output"] else [])
      ++ (if no_ppl then ["--no-ppl"] else [])
      ++ in_files.foldr (fun f acc => "--in-file" :: f :: acc) [])

def compute_imatrix_file (env : Env) (model_file calibration_file imatrix_output : String)
    (process_output : Bool) (verbosity : Int) (no_ppl : Bool)
    (chunk output_frequency save_frequency : Int) (in_files : List String) (ngl : Int) :
    Trace :=
  let cmd := imatrix_cmd env model_file calibration_file imatrix_output process_output
    verbosity no_ppl chunk output_frequency save_frequency in_files ngl
  ⟨["[INFO] Computing imatrix file for model " ++ model_file
      ++ " using calibration data from " ++ calibration_file ++ "\n",
    "[INFO] Running imatrix command:\n  " ++ cmd ++ "\n"], []⟩
    ++ run_command env cmd

/-! ## Artifact oracle and download (lines 147-194) -/

/-- is_model_fully_downloaded: list the expected remote files and check
each for a local counterpart; any failure of the listing itself (the
whole body sits in the try) yields False. The debug/error prints go to
the console, not to the transcript. -/
def is_model_fully_downloaded (env : Env) (model_id target_dir hf_token : String) : Bool :=
  match env.list_repo_files model_id with
  | .ok model_files => model_files.all fun f => env.pathExists (pathJoin target_dir f)
  | .error _ => false

/-- The body shared by both re-download branches of download_model:
announce, call snapshot_download, report success (after the console-only
config patch) or the caught exception. -/
def download_attempt (env : Env) (model_id : String) : List String :=
  ("[INFO] Downloading model " ++ model_id ++ "...\n") ::
    match env.snapshot_download model_id with
    | .ok model_path => ["[INFO] Model downloaded and patched at: " ++ model_path ++ "\n"]
    | .error e => ["[ERROR] Error downloading model: " ++ e ++ "\n"]

/-- download_model: skip when the target directory exists and the
completeness oracle approves; otherwise attempt the download. Never
raises (the snapshot call sits in a try). -/
def download_model (env : Env) (model_id hf_token : String) : Trace :=
  let model_name := pyLast (pySplit '/' model_id)
  let target_dir := pathJoin "models" model_name
  let hdr := ["=== Downloading Model ===\n",
    "[INFO] Model ID: " ++ model_id ++ "\n",
    "[INFO] Target directory: " ++ target_dir ++ "\n"]
  if env.pathExists target_dir then
    if is_model_fully_downloaded env model_id target_dir hf_token then
      ⟨hdr ++ ["[INFO] Model " ++ model_id ++ " is already fully downloaded at "
          ++ target_dir ++ ". Skipping download.\n"], []⟩
    else
      ⟨hdr ++ ["[WARN] Model directory exists but files appear incomplete. Re-downloading...\n"]
          ++ download_attempt env model_id,
        [Action.snapshotDownload model_id target_dir]⟩
  else
    ⟨hdr ++ ["[INFO] Model directory does not exist. Starting download...\n"]
        ++ download_attempt env model_id,
      [Action.snapshotDownload model_id target_dir]⟩

/-! ## Publisher (format_quant_type and upload_quant, lines 397-437) -/

/-- format_quant_type: keep a case-insensitively recognized i1- family
tag, upper-casing the remainder; upper-case everything else. -/
def format_quant_type (qtype : String) : String :=
  if startswith (pyLower qtype) "i1-" then
    match pySplitOnce '-' qtype.data with
    | (_, some rest) => "i1-" ++ pyUpper ⟨rest⟩
    | (_, none) => pyLower qtype
  else pyUpper qtype

/-- upload_quant returns a log string (the callers iterate it character
by character); both the card-generation block and the push block catch
their own exceptions, and a card failure does not stop the push. The
card content is randomized and environment-provided; the push excludes
the *.bf16.gguf intermediate via ignore_patterns. -/
def upload_quant (env : Env)
    (model_id base_model_name quantization_type save_folder hf_token username : String) :
    String × List Action :=
  let repo_id := username ++ "/" ++ base_model_name ++ "-" ++ format_quant_type quantization_type
  let log := "[INFO] Preparing to upload quantized model to repo: " ++ repo_id ++ "\n"
  let log := log ++
    match env.card_gen with
    | .ok _ => "[INFO] Created custom model card for " ++ repo_id ++ " at "
        ++ pathJoin save_folder "README.md" ++ "\n"
    | .error e => "[ERROR] Error creating custom model card: " ++ e ++ "\n"
  match env.create_repo repo_id with
  | .error e =>
    (log ++ "[ERROR] Error uploading model: " ++ e ++ "\n", [Action.createRepo repo_id])
  | .ok _ =>
    let log := log ++ "[INFO] Repo " ++ repo_id ++ " is ready. Uploading folder "
        ++ save_folder ++ "...\n"
    match env.upload_folder save_folder repo_id with
    | .error e =>
      (log ++ "[ERROR] Error uploading model: " ++ e ++ "\n",
        [Action.createRepo repo_id, Action.uploadFolder save_folder repo_id])
    | .ok _ =>
      (log ++ "[INFO] Uploaded quantized model to " ++ repo_id ++ "\n",
        [Action.createRepo repo_id, Action.uploadFolder save_folder repo_id])

/-! ## GGUF method executor (quantize_gguf, lines 453-508) -/

/-- base name used by quantize_gguf (only this executor strips it). -/
def gguf_base (model_id : String) : String := pyStrip (pyLast (pySplit '/' model_id))

def gguf_save_folder (base_model_name : String) : String :=
  pathJoin "quantized_models" (base_model_name ++ "-GGUF")

def gguf_out_file (base_model_name : String) : String :=
  pathJoin (gguf_save_folder base_model_name) (pyLower base_model_name ++ ".bf16.gguf")

/-- Base-precision conversion: run convert_hf_to_gguf.py only when the
bf16 output file does not already exist. -/
def gguf_conversion_step (env : Env) (model_dir out_file : String) : Trace :=
  if !env.pathExists out_file then
    let cmd := build_llama_cmd env "convert_hf_to_gguf.py"
      [model_dir, "--outtype", "bf16", "--outfile", out_file]
    ⟨["[INFO] Running conversion command:\n  " ++ cmd ++ "\n"], []⟩ ++ run_command env cmd
  else
    ⟨["[INFO] File " ++ out_file ++ " already exists. Skipping conversion.\n"], []⟩

/-- Comma-separated extra in-files for the imatrix tool. -/
def gguf_in_files_list (imatrix_in_files : String) : List String :=
  if pyStrip imatrix_in_files ≠ "" then
    ((pySplit ',' imatrix_in_files).map pyStrip).filter fun s => s ≠ ""
  else []

/-- Importance-matrix step: only entered when imatrix use is enabled,
and the tool runs only when recomputation is forced or the imatrix
output file is absent. -/
def gguf_imatrix_step (env : Env) (use_imatrix : Bool)
    (out_file calibration_file imatrix_file : String) (recompute_imatrix : Bool)
    (imatrix_process_output : Bool) (imatrix_verbosity : Int) (imatrix_no_ppl : Bool)
    (imatrix_chunk imatrix_output_frequency imatrix_save_frequency : Int)
    (imatrix_in_files : String) (imatrix_ngl : Int) : Trace :=
  if use_imatrix then
    if recompute_imatrix || !env.pathExists imatrix_file then
      compute_imatrix_file env out_file calibration_file imatrix_file
        imatrix_process_output imatrix_verbosity imatrix_no_ppl
        imatrix_chunk imatrix_output_frequency imatrix_save_frequency
        (gguf_in_files_list imatrix_in_files) imatrix_ngl
    else ⟨[], []⟩
  else ⟨[], []⟩

/-- Per-type output path: the i1- marker appears exactly when the
importance matrix is in use. -/
def gguf_qtype_path (save_folder base_model_name : String) (use_imatrix : Bool)
    (method_str : String) : String :=
  if use_imatrix then
    pathJoin save_folder (pyLower base_model_name ++ "-i1-" ++ method_str ++ ".gguf")
  else
    pathJoin save_folder (pyLower base_model_name ++ "-" ++ method_str ++ ".gguf")

/-- Per-type llama-quantize invocation. -/
def gguf_quant_cmd (env : Env) (use_imatrix : Bool)
    (imatrix_file save_folder base_model_name out_file method_str : String) : String :=
  if use_imatrix then
    build_llama_cmd env "llama-quantize"
      ["--imatrix", imatrix_file, out_file,
        gguf_qtype_path save_folder base_model_name true method_str, method_str]
  else
    build_llama_cmd env "llama-quantize"
      [out_file, gguf_qtype_path save_folder base_model_name false method_str, method_str]

/-- The per-quant-type loop: each token is normalized, IQ tokens are
skipped with a warning when the imatrix is not enabled, and every other
token gets its own independent llama-quantize invocation; the loop never
consults the exit code of one invocation before starting the next. The
source surrounds the method name of the info line with single-quote
characters, omitted here. -/
def gguf_quant_loop (env : Env) (base_model_name save_folder out_file : String)
    (use_imatrix : Bool) (imatrix_file : String) : List String → Trace
  | [] => ⟨[], []⟩
  | method :: rest =>
    let method_str := pyUpper (pyStrip method)
    let t : Trace :=
      if startswith method_str "IQ" && !use_imatrix then
        ⟨["[WARN] Skipping " ++ method_str
            ++ " quantization because imatrix is not enabled.\n"], []⟩
      else
        let cmd := gguf_quant_cmd env use_imatrix imatrix_file save_folder
          base_model_name out_file method_str
        ⟨["[INFO] Quantizing with method " ++ method_str ++ ":\n  " ++ cmd ++ "\n"], []⟩
          ++ run_command env cmd
    t ++ gguf_quant_loop env base_model_name save_folder out_file use_imatrix imatrix_file rest

/-- quantize_gguf: header, conversion, optional imatrix, per-type loop,
then publish (with the i1-GGUF repo tag exactly when the imatrix is in
use). os.makedirs only creates the output directory and prints nothing.
The executor body contains no catchable failure of its own, so the
generator always completes. -/
def quantize_gguf (env : Env) (model_id additional_param hf_token username : String)
    (use_imatrix : Bool) (imatrix_file calibration_file : String) (recompute_imatrix : Bool)
    (imatrix_process_output : Bool) (imatrix_verbosity : Int) (imatrix_no_ppl : Bool)
    (imatrix_chunk imatrix_output_frequency imatrix_save_frequency : Int)
    (imatrix_in_files : String) (imatrix_ngl : Int) : Trace × Option String :=
  let base_model_name := gguf_base model_id
  let model_dir := pathJoin "models" base_model_name
  let save_folder := gguf_save_folder base_model_name
  let out_file := gguf_out_file base_model_name
  let quant_methods := pySplit ',' (pyRemoveSpaces additional_param)
  let repo_quant_type := if use_imatrix then "i1-GGUF" else "GGUF"
  let up := upload_quant env model_id base_model_name repo_quant_type save_folder
    hf_token username
  (⟨["=== GGUF Quantization for " ++ base_model_name ++ " ===\n",
      "[INFO] Expected output file: " ++ out_file ++ "\n"], []⟩
    ++ gguf_conversion_step env model_dir out_file
    ++ gguf_imatrix_step env use_imatrix out_file calibration_file imatrix_file
        recompute_imatrix imatrix_process_output imatrix_verbosity imatrix_no_ppl
        imatrix_chunk imatrix_output_frequency imatrix_save_frequency
        imatrix_in_files imatrix_ngl
    ++ gguf_quant_loop env base_model_name save_folder out_file use_imatrix imatrix_file
        quant_methods
    ++ ⟨["[INFO] Uploading GGUF quantized model...\n"], []⟩
    ++ ⟨iterStr up.1, up.2⟩,
    none)

/-! ## Parameter resolvers (inline in the executors, lines 519-533,
592-604, 642-652, 575) -/

def gptq_defaults : Int × Int × ℚ := (4, 128, 1 / 10)

def gptq_warn : String :=
  "[WARN] Insufficient GPTQ parameters provided. Using defaults: [4, 128, 0.1]\n"

def int_error (s : String) : String :=
  "ValueError: invalid literal for int() with base 10: " ++ s

def float_error (s : String) : String :=
  "ValueError: could not convert string to float: " ++ s

/-- GPTQ parameter resolution (lines 520-532): an empty raw string
silently takes the full default triple; a nonempty string with fewer
than three fields takes the full default triple plus one warning; with
three or more fields the first three are parsed as int, int, float, any
parse failure raising (modelled as Except.error). -/
def gptq_resolve (additional_param : String) :
    Except String ((Int × Int × ℚ) × List String) :=
  if pyStrip additional_param ≠ "" then
    match (pySplit ',' additional_param).map pyStrip with
    | p0 :: p1 :: p2 :: _ =>
      match pyInt? p0 with
      | none => .error (int_error p0)
      | some bits =>
        match pyInt? p1 with
        | none => .error (int_error p1)
        | some group_size =>
          match pyFloat? p2 with
          | none => .error (float_error p2)
          | some damp_percent => .ok ((bits, group_size, damp_percent), [])
    | _ => .ok (gptq_defaults, [gptq_warn])
  else .ok (gptq_defaults, [])

def awq_defaults : Int × Int × String × Bool := (4, 128, "GEMM", true)

def awq_warn : String :=
  "[WARN] Insufficient AWQ parameters provided. Using defaults: [4, 128, GEMM, True]\n"

/-- AWQ parameter resolution (lines 592-604); the zero-point field is a
truthy string test, which cannot raise. The source renders the default
version tag inside quote characters in the warning; omitted here. -/
def awq_resolve (additional_param : String) :
    Except String ((Int × Int × String × Bool) × List String) :=
  if pyStrip additional_param ≠ "" then
    match (pySplit ',' additional_param).map pyStrip with
    | p0 :: p1 :: p2 :: p3 :: _ =>
      match pyInt? p0 with
      | none => .error (int_error p0)
      | some bits =>
        match pyInt? p1 with
        | none => .error (int_error p1)
        | some group_size =>
          .ok ((bits, group_size, p2,
            pyLower p3 = "true" || pyLower p3 = "1" || pyLower p3 = "yes"), [])
    | _ => .ok (awq_defaults, [awq_warn])
  else .ok (awq_defaults, [])

def hqq_defaults : Int × Int := (2, 128)

def hqq_warn : String :=
  "[WARN] Insufficient HQQ parameters provided. Using defaults: [2, 128]\n"

/-- HQQ parameter resolution (lines 642-652). -/
def hqq_resolve (additional_param : String) :
    Except String ((Int × Int) × List String) :=
  if pyStrip additional_param ≠ "" then
    match (pySplit ',' additional_param).map pyStrip with
    | p0 :: p1 :: _ =>
      match pyInt? p0 with
      | none => .error (int_error p0)
      | some bits =>
        match pyInt? p1 with
        | none => .error (int_error p1)
        | some group_size => .ok ((bits, group_size), [])
    | _ => .ok (hqq_defaults, [hqq_warn])
  else .ok (hqq_defaults, [])

/-- ExLlamaV2 bits-per-weight resolution (line 575): a single float with
default 4.5 on an empty string. -/
def exl2_resolve (additional_param : String) : Except String ℚ :=
  if pyStrip additional_param ≠ "" then
    match pyFloat? additional_param with
    | some bpw => .ok bpw
    | none => .error (float_error additional_param)
  else .ok (9 / 2)

/-! ## GPTQ method executor (quantize_gptq, lines 511-570)

Only the transformers import is guarded: the rest of the body has no
try/except, so the parse errors of the resolver and any library failure
escape the generator. The tokenizer/config/model/save interaction is an
external library phase, modelled by Env.gptq_external (its ok value is
the transcript lines that phase yields). The source renders the package
name of the import error inside quote characters, omitted here. -/

def quantize_gptq (env : Env) (model_id additional_param hf_token username : String) :
    Trace × Option String :=
  if !env.has_transformers then
    (⟨["[ERROR] GPU-specific quantization (GPTQ) requires the transformers package. Please use a GPU container or install the dependency.\n"],
      []⟩, none)
  else
    let t0 : Trace := ⟨["=== GPTQ Quantization ===\n"], []⟩
    match gptq_resolve additional_param with
    | .error e => (t0, some e)
    | .ok ((bits, group_size, damp_percent), warns) =>
      let t1 := t0 ++ ⟨warns ++
        ["[INFO] Using GPTQ parameters: bits=" ++ toString bits
          ++ ", group_size=" ++ toString group_size
          ++ ", damp_percent=" ++ ratStr damp_percent ++ "\n",
        "[INFO] Loading tokenizer from local model directory...\n"], []⟩
      match env.gptq_external with
      | .error e => (t1, some e)
      | .ok ext =>
        let base_model_name := pyLast (pySplit '/' model_id)
        let save_folder := pathJoin "quantized_models" (base_model_name ++ "-GPTQ")
        let up := upload_quant env model_id base_model_name "GPTQ" save_folder
          hf_token username
        (t1 ++ ⟨ext ++ ["[INFO] GPTQ quantization completed.\n"], []⟩
          ++ ⟨iterStr up.1, up.2⟩, none)

/-! ## ExLlamaV2 method executor (quantize_exllamav2, lines 572-587) -/

/-- The whole body sits in a try/except, so every failure (including a
bad bits-per-weight float) becomes one ERROR transcript line and the
generator completes. Python prints the float bpw (for example 4.5); the
model prints the exact rational. -/
def quantize_exllamav2 (env : Env) (model_id additional_param hf_token username : String) :
    Trace × Option String :=
  let body : Trace × Option String :=
    let t0 : Trace := ⟨["=== ExLlamaV2 Quantization ===\n"], []⟩
    match exl2_resolve additional_param with
    | .error e => (t0, some e)
    | .ok bpw =>
      let base_model_name := pyLast (pySplit '/' model_id)
      let model_dir := pathJoin "models" base_model_name
      let save_folder := pathJoin "quantized_models" (base_model_name ++ "-EXL2")
      let cmd := "\"" ++ env.sys_executable ++ "\" \"/app/exllamav2/convert.py\" -i "
        ++ model_dir ++ " -o " ++ save_folder ++ " -b " ++ ratStr bpw
      let up := upload_quant env model_id base_model_name "exl2" save_folder
        hf_token username
      (t0 ++ ⟨["[INFO] Running ExLlamaV2 command:\n  " ++ cmd ++ "\n"], []⟩
        ++ run_command env cmd
        ++ ⟨["[INFO] ExLlamaV2 quantization completed.\n"], []⟩
        ++ ⟨iterStr up.1, up.2⟩, none)
  match body with
  | (t, some e) =>
    (t ++ ⟨["[ERROR] Error during ExLlamaV2 quantization: " ++ e ++ "\n"], []⟩, none)
  | (t, none) => (t, none)

/-! ## AWQ method executor (quantize_awq, lines 589-637) -/

/-- The whole body sits in a try/except: parameter parse failures, the
awq import, and the library phase (Env.awq_external, covering lines
607-632 including their yields) all collapse to one ERROR line. -/
def quantize_awq (env : Env) (model_id additional_param hf_token username : String) :
    Trace × Option String :=
  let body : Trace × Option String :=
    let t0 : Trace := ⟨["=== AWQ Quantization ===\n"], []⟩
    match awq_resolve additional_param with
    | .error e => (t0, some e)
    | .ok ((bits, group_size, version, zero_point), warns) =>
      let t1 := t0 ++ ⟨warns ++
        ["[INFO] Using AWQ parameters: bits=" ++ toString bits
          ++ ", group_size=" ++ toString group_size
          ++ ", version=" ++ version
          ++ ", zero_point=" ++ pyBoolStr zero_point ++ "\n"], []⟩
      match env.awq_external with
      | .error e => (t1, some e)
      | .ok ext =>
        let base_model_name := pyLast (pySplit '/' model_id)
        let save_folder := pathJoin "quantized_models" (base_model_name ++ "-AWQ")
        let up := upload_quant env model_id base_model_name "AWQ" save_folder
          hf_token username
        (t1 ++ ⟨ext ++ ["[INFO] AWQ quantization completed. Saved to " ++ save_folder ++ "\n"],
            []⟩
          ++ ⟨iterStr up.1, up.2⟩, none)
  match body with
  | (t, some e) =>
    (t ++ ⟨["[ERROR] Error during AWQ quantization: " ++ e ++ "\n"], []⟩, none)
  | (t, none) => (t, none)

/-! ## HQQ method executor (quantize_hqq, lines 639-673) -/

/-- Same try/except shell as AWQ; the hqq import and the library phase
are Env.hqq_external (covering lines 655-669 including their yields). -/
def quantize_hqq (env : Env) (model_id additional_param hf_token username : String) :
    Trace × Option String :=
  let body : Trace × Option String :=
    let t0 : Trace := ⟨["=== HQQ Quantization ===\n"], []⟩
    match hqq_resolve additional_param with
    | .error e => (t0, some e)
    | .ok ((bits, group_size), warns) =>
      let t1 := t0 ++ ⟨warns ++
        ["[INFO] Using HQQ parameters: bits=" ++ toString bits
          ++ ", group_size=" ++ toString group_size ++ "\n"], []⟩
      match env.hqq_external with
      | .error e => (t1, some e)
      | .ok ext =>
        let base_model_name := pyLast (pySplit '/' model_id)
        let save_folder := pathJoin "quantized_models" (base_model_name ++ "-HQQ")
        let up := upload_quant env model_id base_model_name "HQQ" save_folder
          hf_token username
        (t1 ++ ⟨ext, []⟩ ++ ⟨iterStr up.1, up.2⟩, none)
  match body with
  | (t, some e) =>
    (t ++ ⟨["[ERROR] Error during HQQ quantization: " ++ e ++ "\n"], []⟩, none)
  | (t, none) => (t, none)

/-! ## Cleanup (inline in quant_tavern_ui, lines 752-771) -/

/-- The per-folder deletion loop under quantized_models: exactly the
folders whose name starts with the base name followed by a dash are
deleted; a deletion failure is recorded and the loop continues. -/
def cleanup_quant_loop (env : Env) (base_model_name : String) : List String → Trace
  | [] => ⟨[], []⟩
  | folder :: rest =>
    let t : Trace :=
      if startswith folder (base_model_name ++ "-") then
        let full_path := pathJoin "quantized_models" folder
        match env.rmtree full_path with
        | none =>
          ⟨["[INFO] Deleted quantized model folder: " ++ full_path ++ "\n"],
            [Action.rmtree full_path]⟩
        | some e =>
          ⟨["[ERROR] Could not delete quantized folder " ++ full_path ++ ": " ++ e ++ "\n"],
            [Action.rmtree full_path]⟩
      else ⟨[], []⟩
    t ++ cleanup_quant_loop env base_model_name rest

/-- The cleanup block run after the methods of one model: optionally
delete the original model directory, optionally delete every
quantized-output directory prefixed by the base name. All output is
appended to the log without intermediate yields; errors are recorded,
never raised. -/
def cleanup_model (env : Env) (base_model_name : String)
    (delete_original delete_quantized : Bool) : Trace :=
  let t1 : Trace :=
    if delete_original then
      let original_path := pathJoin "models" base_model_name
      if env.pathExists original_path then
        match env.rmtree original_path with
        | none =>
          ⟨["[INFO] Deleted original model folder: " ++ original_path ++ "\n"],
            [Action.rmtree original_path]⟩
        | some e =>
          ⟨["[ERROR] Could not delete original model folder " ++ original_path
              ++ ": " ++ e ++ "\n"],
            [Action.rmtree original_path]⟩
      else ⟨[], []⟩
    else ⟨[], []⟩
  let t2 : Trace :=
    if delete_quantized then
      if env.pathExists "quantized_models" then
        cleanup_quant_loop env base_model_name (env.listdir "quantized_models")
      else ⟨[], []⟩
    else ⟨[], []⟩
  t1 ++ t2

/-! ## Orchestrator (quant_tavern_ui, lines 678-775)

The UI function is a generator whose every yield surfaces the whole
accumulated log string (full_log). The model records the sequence of
yielded snapshots, the actions performed, and the exception (if any)
that escaped the loop — quant_tavern_ui itself contains no try/except,
so an exception escaping a consumed generator terminates the batch. -/

/-- The 27 inputs of quant_tavern_ui, with the source parameter names. -/
structure UIArgs where
  model_ids : String
  hf_token : String
  username : String
  gguf_sel : Bool
  gguf_param : String
  gptq_sel : Bool
  gptq_param : String
  exllamav2_sel : Bool
  exllamav2_param : String
  awq_sel : Bool
  awq_param : String
  hqq_sel : Bool
  hqq_param : String
  enable_imatrix : Bool
  imatrix_file : String
  calibration_file : String
  recompute_imatrix : Bool
  imatrix_process_output : Bool
  imatrix_verbosity : Int
  imatrix_no_ppl : Bool
  imatrix_chunk : Int
  imatrix_output_frequency : Int
  imatrix_save_frequency : Int
  imatrix_in_files : String
  imatrix_ngl : Int
  delete_original : Bool
  delete_quantized : Bool

/-- State of one stage of the batch loop: the current full_log value,
the snapshots yielded so far, the actions performed, and the exception
that escaped (if any). -/
structure LoopOut where
  fl : String
  snaps : List String
  acts : List Action
  err : Option String
deriving DecidableEq, Repr

/-- The pattern `for line in gen: full_log += line; yield full_log`:
returns the final full_log and the snapshots yielded, one per line. -/
def yieldLines (fl : String) : List String → String × List String
  | [] => (fl, [])
  | l :: ls =>
    ((yieldLines (fl ++ l) ls).1, (fl ++ l) :: (yieldLines (fl ++ l) ls).2)

/-- The selected methods for one model, in the fixed source order
GGUF, GPTQ, ExLlamaV2, AWQ, HQQ (lines 702-712). -/
def selected_methods (a : UIArgs) : List (String × String) :=
  (if a.gguf_sel then [("GGUF", a.gguf_param)] else [])
    ++ (if a.gptq_sel then [("GPTQ", a.gptq_param)] else [])
    ++ (if a.exllamav2_sel then [("ExLlamaV2", a.exllamav2_param)] else [])
    ++ (if a.awq_sel then [("AWQ", a.awq_param)] else [])
    ++ (if a.hqq_sel then [("HQQ", a.hqq_param)] else [])

/-- The if/elif dispatch of lines 722-746 recognizes these names. -/
def knownMethod (m : String) : Bool :=
  m = "GGUF" || m = "GPTQ" || m = "ExLlamaV2" || m = "AWQ" || m = "HQQ"

/-- Dispatch to the method executor (the GGUF branch passes gguf_param
and the full imatrix knob set, as the source does at lines 724-728). -/
def run_method (env : Env) (a : UIArgs) (model_id method param : String) :
    Trace × Option String :=
  if method = "GGUF" then
    quantize_gguf env model_id a.gguf_param a.hf_token a.username
      a.enable_imatrix a.imatrix_file a.calibration_file a.recompute_imatrix
      a.imatrix_process_output a.imatrix_verbosity a.imatrix_no_ppl
      a.imatrix_chunk a.imatrix_output_frequency a.imatrix_save_frequency
      a.imatrix_in_files a.imatrix_ngl
  else if method = "GPTQ" then quantize_gptq env model_id param a.hf_token a.username
  else if method = "ExLlamaV2" then quantize_exllamav2 env model_id param a.hf_token a.username
  else if method = "AWQ" then quantize_awq env model_id param a.hf_token a.username
  else if method = "HQQ" then quantize_hqq env model_id param a.hf_token a.username
  else (⟨[], []⟩, none)

/-- The per-method loop of lines 719-749: announce the method, yield,
consume the executor generator yielding after each line, and propagate
an escaping exception immediately (there is no try/except here). The
unknown-method branch appends one error line and yields once. -/
def methods_loop (env : Env) (a : UIArgs) (model_id : String) :
    String → List (String × String) → LoopOut
  | fl, [] => ⟨fl, [], [], none⟩
  | fl, (method, param) :: rest =>
    let fl1 := fl ++ ("[INFO] Running " ++ method ++ " quantization...\n")
    if knownMethod method then
      let g := run_method env a model_id method param
      let fl2 := (yieldLines fl1 g.1.lines).1
      let sn := (yieldLines fl1 g.1.lines).2
      match g.2 with
      | some e => ⟨fl2, fl1 :: sn, g.1.acts, some e⟩
      | none =>
        let r := methods_loop env a model_id fl2 rest
        ⟨r.fl, fl1 :: (sn ++ r.snaps), g.1.acts ++ r.acts, r.err⟩
    else
      let fl2 := fl1 ++ ("[ERROR] Unknown quantization method: " ++ method ++ "\n")
      let r := methods_loop env a model_id fl2 rest
      ⟨r.fl, fl1 :: fl2 :: r.snaps, r.acts, r.err⟩

/-- One iteration of the model loop (lines 695-772): header appended
without a yield, download consumed line by line, the empty-selection
error (which skips the rest of the iteration, including cleanup), the
method loop, then cleanup appended in one block and yielded once. -/
def processModel (env : Env) (a : UIArgs) (fl0 model_id : String) : LoopOut :=
  let fl := fl0 ++ ("\n=== Processing model: " ++ model_id ++ " ===\n")
  let dl := download_model env model_id a.hf_token
  let fl1 := (yieldLines fl dl.lines).1
  let sn0 := (yieldLines fl dl.lines).2
  if (selected_methods a).isEmpty then
    let fl2 := fl1
      ++ "[ERROR] No quantization method selected for model. Please select at least one method.\n"
    ⟨fl2, sn0 ++ [fl2], dl.acts, none⟩
  else
    let r := methods_loop env a model_id fl1 (selected_methods a)
    match r.err with
    | some e => ⟨r.fl, sn0 ++ r.snaps, dl.acts ++ r.acts, some e⟩
    | none =>
      let base_model_name := pyLast (pySplit '/' model_id)
      let cl := cleanup_model env base_model_name a.delete_original a.delete_quantized
      let fl3 := r.fl ++ String.join cl.lines
      ⟨fl3, sn0 ++ r.snaps ++ [fl3], dl.acts ++ r.acts ++ cl.acts, none⟩

/-- The model-list loop: strictly in order, stopping only when an
exception escapes a method executor. -/
def process_models (env : Env) (a : UIArgs) : String → List String → LoopOut
  | fl, [] => ⟨fl, [], [], none⟩
  | fl, m :: ms =>
    let r := processModel env a fl m
    match r.err with
    | some _ => r
    | none =>
      let r2 := process_models env a r.fl ms
      ⟨r2.fl, r.snaps ++ r2.snaps, r.acts ++ r2.acts, r2.err⟩

/-- quant_tavern_ui: the batch entry point. model_ids is split into
non-empty stripped lines; the completion banner is appended and yielded
only when no exception terminated the loop. -/
def quant_tavern_ui (env : Env) (a : UIArgs) : LoopOut :=
  let full_log := "=== Starting SpongeQuant Quantization Process ===\n"
  let model_list := ((pySplit '\n' a.model_ids).map pyStrip).filter fun m => m ≠ ""
  let r := process_models env a full_log model_list
  match r.err with
  | some _ => r
  | none =>
    let fl2 := r.fl ++ "\n=== Quantization Process Completed ===\n"
    ⟨fl2, r.snaps ++ [fl2], r.acts, none⟩

/-! ## Shared lemmas -/

theorem str_data_append (a b : String) : (a ++ b).data = a.data ++ b.data := by
  cases a; cases b; rfl

theorem str_append_assoc (a b c : String) : a ++ b ++ c = a ++ (b ++ c) := by
  cases a; cases b; cases c
  show String.mk _ = String.mk _
  simp [String.append, List.append_assoc]

/-- Transcript extension order: one string is a prefix of another. This
is the relation the append-only transcript invariant is stated in. -/
def strLe (a b : String) : Prop := a.data <+: b.data

theorem strLe_refl (a : String) : strLe a a := List.prefix_refl _

theorem strLe_append (a b : String) : strLe a (a ++ b) := by
  unfold strLe
  rw [str_data_append]
  exact List.prefix_append _ _

theorem strLe_trans {a b c : String} (h1 : strLe a b) (h2 : strLe b c) : strLe a c :=
  List.IsPrefix.trans h1 h2

theorem upload_quant_acts (env : Env)
    (model_id base_model_name quantization_type save_folder hf_token username : String) :
    (upload_quant env model_id base_model_name quantization_type save_folder
        hf_token username).2 =
      Action.createRepo (username ++ "/" ++ base_model_name ++ "-"
        ++ format_quant_type quantization_type) ::
      (match env.create_repo (username ++ "/" ++ base_model_name ++ "-"
          ++ format_quant_type quantization_type) with
        | .error _ => []
        | .ok _ => [Action.uploadFolder save_folder
            (username ++ "/" ++ base_model_name ++ "-"
              ++ format_quant_type quantization_type)]) := by
  unfold upload_quant
  rcases hcr : env.create_repo (username ++ "/" ++ base_model_name ++ "-"
      ++ format_quant_type quantization_type) with e | u
  · simp [hcr]
  · rcases hup : env.upload_folder save_folder (username ++ "/" ++ base_model_name ++ "-"
        ++ format_quant_type quantization_type) with e2 | u2 <;> simp [hcr, hup]

theorem upload_quant_createRepo_mem (env : Env)
    (model_id base_model_name quantization_type save_folder hf_token username : String) :
    Action.createRepo (username ++ "/" ++ base_model_name ++ "-"
        ++ format_quant_type quantization_type) ∈
      (upload_quant env model_id base_model_name quantization_type save_folder
        hf_token username).2 := by
  rw [upload_quant_acts]
  exact List.mem_cons_self _ _

/-! ## C4: process runner contract -/

def c4_env : Env := {
  pathExists := fun _ => false
  list_repo_files := fun _ => .error "offline"
  snapshot_download := fun _ => .error "offline"
  run := fun _ => (["line1\n", "line2\n"], "tail", 3)
  sys_executable := "py"
  has_transformers := false
  gptq_external := .error "no gpu"
  awq_external := .error "no gpu"
  hqq_external := .error "no gpu"
  card_gen := .ok ()
  create_repo := fun _ => .ok ()
  upload_folder := fun _ _ => .ok ()
  rmtree := fun _ => none
  listdir := fun _ => [] }

/-- C4: for every command, the runner yields the merged output lines as
read (after the initial debug line), flushes a non-empty unterminated
chunk as one further item, appends the synthetic diagnostic line exactly
when the exit code is non-zero (and then as the last item), and records
exactly one subprocess invocation; it is a total function, so it never
raises. -/
theorem c4_run_command_contract (env : Env) (cmd : String)
    (out : List String) (rem : String) (code : Int)
    (h : env.run cmd = (out, rem, code)) :
    (run_command env cmd).lines =
      run_debug_line cmd ::
        (out ++ (if rem ≠ "" then [rem] else [])
          ++ (if code ≠ 0 then [run_error_line code] else [])) ∧
    (code ≠ 0 → (run_command env cmd).lines.getLast? = some (run_error_line code)) ∧
    (code = 0 → rem ≠ "" → (run_command env cmd).lines.getLast? = some rem) ∧
    (run_command env cmd).acts = [Action.runCmd cmd] := by
  unfold run_command
  rw [h]
  refine ⟨by simp [read_stream_eq], ?_, ?_, rfl⟩
  · intro hc
    simp only [read_stream_eq, if_pos hc]
    rw [show run_debug_line cmd ::
        (out ++ (if rem ≠ "" then [rem] else []) ++ [run_error_line code]) =
        (run_debug_line cmd :: (out ++ (if rem ≠ "" then [rem] else [])))
          ++ [run_error_line code] by simp]
    exact List.getLast?_concat _
  · intro hc hr
    subst hc
    simp only [read_stream_eq, if_pos hr]
    rw [if_neg (by decide : ¬((0 : Int) ≠ 0)), List.append_nil]
    rw [show run_debug_line cmd :: (out ++ [rem]) =
        (run_debug_line cmd :: out) ++ [rem] by simp]
    exact List.getLast?_concat _

/-- Witness for C4 at a concrete environment: two terminated lines, a
non-empty unterminated tail, exit code 3. -/
theorem c4_witness :
    (run_command c4_env "do it").lines =
      run_debug_line "do it" ::
        (["line1\n", "line2\n"] ++ ["tail"] ++ [run_error_line 3]) ∧
    (run_command c4_env "do it").lines.getLast? = some (run_error_line 3) ∧
    (run_command c4_env "do it").acts = [Action.runCmd "do it"] := by
  have h := c4_run_command_contract c4_env "do it" ["line1\n", "line2\n"] "tail" 3 rfl
  exact ⟨by simpa using h.1, h.2.1 (by decide), h.2.2.2⟩

/-! ## C9: method-name formatting and publish destination -/

theorem format_quant_type_i1 (rest : String) :
    format_quant_type ("i1-" ++ rest) = "i1-" ++ pyUpper rest := by
  obtain ⟨l⟩ := rest
  have hdata : ("i1-" ++ String.mk l).data = 'i' :: '1' :: '-' :: l := rfl
  have hlow : startswith (pyLower ("i1-" ++ String.mk l)) "i1-" = true := by
    show List.isPrefixOf ['i', '1', '-'] ((('i' :: '1' :: '-' :: l).map Char.toLower)) = true
    simp [List.isPrefixOf, show Char.toLower 'i' = 'i' from rfl,
      show Char.toLower '1' = '1' from rfl, show Char.toLower '-' = '-' from rfl]
  unfold format_quant_type
  rw [if_pos hlow, hdata]
  simp [pySplitOnce]

theorem format_quant_type_i1_upper (rest : String) :
    format_quant_type ("I1-" ++ rest) = "i1-" ++ pyUpper rest := by
  obtain ⟨l⟩ := rest
  have hdata : ("I1-" ++ String.mk l).data = 'I' :: '1' :: '-' :: l := rfl
  have hlow : startswith (pyLower ("I1-" ++ String.mk l)) "i1-" = true := by
    show List.isPrefixOf ['i', '1', '-'] ((('I' :: '1' :: '-' :: l).map Char.toLower)) = true
    simp [List.isPrefixOf, show Char.toLower 'I' = 'i' from rfl,
      show Char.toLower '1' = '1' from rfl, show Char.toLower '-' = '-' from rfl]
  unfold format_quant_type
  rw [if_pos hlow, hdata]
  simp [pySplitOnce]

theorem format_quant_type_plain (q : String)
    (h : startswith (pyLower q) "i1-" = false) : format_quant_type q = pyUpper q := by
  unfold format_quant_type
  rw [if_neg (by simp [h])]

/-- C9: the display formatter keeps a case-insensitively recognized i1-
family prefix and upper-cases the remainder, upper-cases everything
else, and the Publisher always targets exactly
username/{base-name}-{formatted-method-name} (its first recorded action
is creating that repository). -/
theorem c9_format_and_destination :
    (∀ rest : String, format_quant_type ("i1-" ++ rest) = "i1-" ++ pyUpper rest) ∧
    (∀ rest : String, format_quant_type ("I1-" ++ rest) = "i1-" ++ pyUpper rest) ∧
    (∀ q : String, startswith (pyLower q) "i1-" = false →
      format_quant_type q = pyUpper q) ∧
    (∀ (env : Env) (model_id base_model_name quantization_type save_folder
        hf_token username : String),
      (upload_quant env model_id base_model_name quantization_type save_folder
          hf_token username).2.head? =
        some (Action.createRepo (username ++ "/" ++ base_model_name ++ "-"
          ++ format_quant_type quantization_type))) := by
  refine ⟨format_quant_type_i1, format_quant_type_i1_upper, format_quant_type_plain, ?_⟩
  intro env model_id base_model_name quantization_type save_folder hf_token username
  rw [upload_quant_acts]
  rfl

/-- Witness for C9 at concrete tokens: i1-gguf keeps its family tag with
the remainder upper-cased, exl2 (no recognized prefix) is upper-cased
whole, and a concrete publish targets u/modelA-i1-GGUF. -/
theorem c9_witness :
    format_quant_type "i1-gguf" = "i1-GGUF" ∧
    format_quant_type "exl2" = "EXL2" ∧
    (upload_quant c4_env "org/modelA" "modelA" "i1-GGUF" "quantized_models/modelA-GGUF"
        "t" "u").2.head? = some (Action.createRepo "u/modelA-i1-GGUF") := by
  refine ⟨?_, ?_, ?_⟩
  · have h := c9_format_and_destination.1 "gguf"
    simpa using h
  · exact c9_format_and_destination.2.2.1 "exl2" (by decide)
  · have h := c9_format_and_destination.2.2.2 c4_env "org/modelA" "modelA" "i1-GGUF"
      "quantized_models/modelA-GGUF" "t" "u"
    simpa using h

/-! ## C5: download idempotence -/

/-- Environment for the C5 witness: the remote lists two files and both
(plus the target directory) are present locally. -/
def c5_env : Env := {
  pathExists := fun p =>
    p = "models/m" || p = "models/m/config.json" || p = "models/m/model.safetensors"
  list_repo_files := fun _ => .ok ["config.json", "model.safetensors"]
  snapshot_download := fun _ => .ok "models/m"
  run := fun _ => ([], "", 0)
  sys_executable := "py"
  has_transformers := false
  gptq_external := .error "no gpu"
  awq_external := .error "no gpu"
  hqq_external := .error "no gpu"
  card_gen := .ok ()
  create_repo := fun _ => .ok ()
  upload_folder := fun _ _ => .ok ()
  rmtree := fun _ => none
  listdir := fun _ => [] }

/-- C5: the completeness oracle answers true exactly when the remote
file listing succeeds and every listed file exists locally (so a listing
failure forces false); the download step performs no snapshot download
exactly when the target directory exists and the oracle approves, it
performs at most that one download action, and in particular a second
run against a fully-present directory downloads nothing. -/
theorem c5_download_skip (env : Env) (model_id hf_token : String) :
    ((is_model_fully_downloaded env model_id
        (pathJoin "models" (pyLast (pySplit '/' model_id))) hf_token = true) ↔
      (∃ fs, env.list_repo_files model_id = .ok fs ∧ ∀ f ∈ fs,
        env.pathExists
          (pathJoin (pathJoin "models" (pyLast (pySplit '/' model_id))) f) = true)) ∧
    ((download_model env model_id hf_token).acts = [] ↔
      (env.pathExists (pathJoin "models" (pyLast (pySplit '/' model_id))) = true ∧
        is_model_fully_downloaded env model_id
          (pathJoin "models" (pyLast (pySplit '/' model_id))) hf_token = true)) ∧
    ((download_model env model_id hf_token).acts = [] ∨
      (download_model env model_id hf_token).acts =
        [Action.snapshotDownload model_id
          (pathJoin "models" (pyLast (pySplit '/' model_id)))]) ∧
    (∀ fs, env.pathExists (pathJoin "models" (pyLast (pySplit '/' model_id))) = true →
      env.list_repo_files model_id = .ok fs →
      (∀ f ∈ fs, env.pathExists
        (pathJoin (pathJoin "models" (pyLast (pySplit '/' model_id))) f) = true) →
      (download_model env model_id hf_token).acts = []) := by
  have horacle : (is_model_fully_downloaded env model_id
      (pathJoin "models" (pyLast (pySplit '/' model_id))) hf_token = true) ↔
      (∃ fs, env.list_repo_files model_id = .ok fs ∧ ∀ f ∈ fs,
        env.pathExists
          (pathJoin (pathJoin "models" (pyLast (pySplit '/' model_id))) f) = true) := by
    unfold is_model_fully_downloaded
    rcases hls : env.list_repo_files model_id with e | fs
    · simp
    · simp [List.all_eq_true]
  refine ⟨horacle, ?_, ?_, ?_⟩
  · unfold download_model
    rcases hpe : env.pathExists (pathJoin "models" (pyLast (pySplit '/' model_id))) with _ | _
    · simp [hpe]
    · rcases hfd : is_model_fully_downloaded env model_id
          (pathJoin "models" (pyLast (pySplit '/' model_id))) hf_token with _ | _
      · simp [hpe, hfd]
      · simp [hpe, hfd]
  · unfold download_model
    rcases hpe : env.pathExists (pathJoin "models" (pyLast (pySplit '/' model_id))) with _ | _
    · simp [hpe]
    · rcases hfd : is_model_fully_downloaded env model_id
          (pathJoin "models" (pyLast (pySplit '/' model_id))) hf_token with _ | _
      · simp [hpe, hfd]
      · simp [hpe, hfd]
  · intro fs hpe hls hall
    have hfd : is_model_fully_downloaded env model_id
        (pathJoin "models" (pyLast (pySplit '/' model_id))) hf_token = true :=
      horacle.mpr ⟨fs, hls, hall⟩
    unfold download_model
    simp [hpe, hfd]

/-- Witness for C5: against a fully-present local directory the download
step performs no download action. -/
theorem c5_witness : (download_model c5_env "org/m" "t").acts = [] :=
  (c5_download_skip c5_env "org/m" "t").2.2.2 ["config.json", "model.safetensors"]
    (by decide) rfl (by decide)

/-! ## GGUF loop characterizations (shared by C2, C6, C10) -/

theorem gguf_quant_loop_acts_no_imatrix (env : Env) (base folder out imf : String) :
    ∀ toks : List String,
      (gguf_quant_loop env base folder out false imf toks).acts =
        (toks.filter fun m => !(startswith (pyUpper (pyStrip m)) "IQ")).map
          fun m => Action.runCmd
            (gguf_quant_cmd env false imf folder base out (pyUpper (pyStrip m))) := by
  intro toks
  induction toks with
  | nil => rfl
  | cons m rest ih =>
    rcases h : startswith (pyUpper (pyStrip m)) "IQ" with _ | _ <;>
      simp [gguf_quant_loop, run_command, h, ih]

theorem gguf_quant_loop_acts_imatrix (env : Env) (base folder out imf : String) :
    ∀ toks : List String,
      (gguf_quant_loop env base folder out true imf toks).acts =
        toks.map fun m => Action.runCmd
          (gguf_quant_cmd env true imf folder base out (pyUpper (pyStrip m))) := by
  intro toks
  induction toks with
  | nil => rfl
  | cons m rest ih => simp [gguf_quant_loop, run_command, ih]

theorem gguf_quant_loop_warn_mem (env : Env) (base folder out imf : String) :
    ∀ (toks : List String) (m : String), m ∈ toks →
      startswith (pyUpper (pyStrip m)) "IQ" = true →
      ("[WARN] Skipping " ++ pyUpper (pyStrip m)
          ++ " quantization because imatrix is not enabled.\n") ∈
        (gguf_quant_loop env base folder out false imf toks).lines := by
  intro toks
  induction toks with
  | nil => intro m hm; exact absurd hm (List.not_mem_nil m)
  | cons a rest ih =>
    intro m hm hIQ
    rcases List.mem_cons.mp hm with heq | htail
    · subst heq
      simp [gguf_quant_loop, hIQ]
    · have hmem := ih m htail hIQ
      simp only [gguf_quant_loop, Trace.append_lines, List.mem_append]
      exact Or.inr hmem

/-- Decomposition of the GGUF executor action trace into its four
stages (shared by C2 and C10). -/
theorem quantize_gguf_acts (env : Env)
    (model_id additional_param hf_token username : String)
    (use_imatrix : Bool) (imatrix_file calibration_file : String) (recompute_imatrix : Bool)
    (imatrix_process_output : Bool) (imatrix_verbosity : Int) (imatrix_no_ppl : Bool)
    (imatrix_chunk imatrix_output_frequency imatrix_save_frequency : Int)
    (imatrix_in_files : String) (imatrix_ngl : Int) :
    (quantize_gguf env model_id additional_param hf_token username
        use_imatrix imatrix_file calibration_file recompute_imatrix
        imatrix_process_output imatrix_verbosity imatrix_no_ppl
        imatrix_chunk imatrix_output_frequency imatrix_save_frequency
        imatrix_in_files imatrix_ngl).1.acts =
      (gguf_conversion_step env (pathJoin "models" (gguf_base model_id))
          (gguf_out_file (gguf_base model_id))).acts
        ++ (gguf_imatrix_step env use_imatrix (gguf_out_file (gguf_base model_id))
            calibration_file imatrix_file recompute_imatrix
            imatrix_process_output imatrix_verbosity imatrix_no_ppl
            imatrix_chunk imatrix_output_frequency imatrix_save_frequency
            imatrix_in_files imatrix_ngl).acts
        ++ (gguf_quant_loop env (gguf_base model_id)
            (gguf_save_folder (gguf_base model_id)) (gguf_out_file (gguf_base model_id))
            use_imatrix imatrix_file
            (pySplit ',' (pyRemoveSpaces additional_param))).acts
        ++ (upload_quant env model_id (gguf_base model_id)
            (if use_imatrix then "i1-GGUF" else "GGUF")
            (gguf_save_folder (gguf_base model_id)) hf_token username).2 := by
  simp [quantize_gguf]

/-! ## C6: quant-type gating without the importance matrix -/

/-- C6: with the importance matrix disabled, the per-type loop issues a
quantize invocation for exactly the tokens whose normalized form does
not begin with IQ; every IQ token instead contributes a skip warning and
no invocation, and every non-IQ token of the same run keeps its own
invocation (the characterization depends only on the token list, never
on the outcome of earlier invocations, so tokens are independent). -/
theorem c6_iq_gating :
    (∀ (env : Env) (base folder out imf : String) (toks : List String),
      (gguf_quant_loop env base folder out false imf toks).acts =
        (toks.filter fun m => !(startswith (pyUpper (pyStrip m)) "IQ")).map
          fun m => Action.runCmd
            (gguf_quant_cmd env false imf folder base out (pyUpper (pyStrip m)))) ∧
    (∀ (env : Env) (base folder out imf : String) (toks : List String) (m : String),
      m ∈ toks → startswith (pyUpper (pyStrip m)) "IQ" = true →
      ("[WARN] Skipping " ++ pyUpper (pyStrip m)
          ++ " quantization because imatrix is not enabled.\n") ∈
        (gguf_quant_loop env base folder out false imf toks).lines) ∧
    (∀ (env : Env) (base folder out imf : String) (toks : List String) (m : String),
      m ∈ toks → startswith (pyUpper (pyStrip m)) "IQ" = false →
      Action.runCmd (gguf_quant_cmd env false imf folder base out (pyUpper (pyStrip m))) ∈
        (gguf_quant_loop env base folder out false imf toks).acts) := by
  refine ⟨gguf_quant_loop_acts_no_imatrix, gguf_quant_loop_warn_mem, ?_⟩
  intro env base folder out imf toks m hm hIQ
  rw [gguf_quant_loop_acts_no_imatrix]
  exact List.mem_map_of_mem _ (List.mem_filter.mpr ⟨hm, by simp [hIQ]⟩)

/-- Witness for C6 at the token list of the spec example: IQ2_XXS is
skipped with a warning and gets no invocation while Q4_K_M still gets
one. -/
theorem c6_witness :
    ("[WARN] Skipping " ++ pyUpper (pyStrip "IQ2_XXS")
        ++ " quantization because imatrix is not enabled.\n") ∈
      (gguf_quant_loop c4_env "modelA" "quantized_models/modelA-GGUF"
        "out.gguf" false "im.dat" ["IQ2_XXS", "Q4_K_M"]).lines ∧
    Action.runCmd (gguf_quant_cmd c4_env false "im.dat" "quantized_models/modelA-GGUF"
        "modelA" "out.gguf" (pyUpper (pyStrip "Q4_K_M"))) ∈
      (gguf_quant_loop c4_env "modelA" "quantized_models/modelA-GGUF"
        "out.gguf" false "im.dat" ["IQ2_XXS", "Q4_K_M"]).acts ∧
    (gguf_quant_loop c4_env "modelA" "quantized_models/modelA-GGUF"
        "out.gguf" false "im.dat" ["IQ2_XXS", "Q4_K_M"]).acts =
      [Action.runCmd (gguf_quant_cmd c4_env false "im.dat" "quantized_models/modelA-GGUF"
        "modelA" "out.gguf" (pyUpper (pyStrip "Q4_K_M")))] := by
  refine ⟨?_, ?_, ?_⟩
  · exact c6_iq_gating.2.1 c4_env "modelA" "quantized_models/modelA-GGUF" "out.gguf"
      "im.dat" ["IQ2_XXS", "Q4_K_M"] "IQ2_XXS" (by decide) (by decide)
  · exact c6_iq_gating.2.2 c4_env "modelA" "quantized_models/modelA-GGUF" "out.gguf"
      "im.dat" ["IQ2_XXS", "Q4_K_M"] "Q4_K_M" (by simp) (by decide)
  · rw [c6_iq_gating.1 c4_env "modelA" "quantized_models/modelA-GGUF" "out.gguf"
      "im.dat" ["IQ2_XXS", "Q4_K_M"]]
    decide

/-! ## C10: imatrix toggle changes the naming scheme -/

theorem format_i1_gguf : format_quant_type "i1-GGUF" = "i1-GGUF" := by decide

theorem format_gguf : format_quant_type "GGUF" = "GGUF" := by decide

/-- C10: with the importance matrix enabled every token is quantized to
{lower base}-i1-{TYPE}.gguf and the publish destination is
username/{base}-i1-GGUF; with it disabled the file is
{lower base}-{TYPE}.gguf and the destination is username/{base}-GGUF. -/
theorem c10_imatrix_naming :
    (∀ (folder base m : String),
      gguf_qtype_path folder base true m =
        folder ++ "/" ++ (pyLower base ++ "-i1-" ++ m ++ ".gguf")) ∧
    (∀ (folder base m : String),
      gguf_qtype_path folder base false m =
        folder ++ "/" ++ (pyLower base ++ "-" ++ m ++ ".gguf")) ∧
    (∀ (env : Env) (base folder out imf : String) (toks : List String),
      (gguf_quant_loop env base folder out true imf toks).acts =
        toks.map fun m => Action.runCmd
          (gguf_quant_cmd env true imf folder base out (pyUpper (pyStrip m)))) ∧
    (∀ (env : Env) (model_id additional_param hf_token username imatrix_file
        calibration_file : String) (recompute_imatrix imatrix_process_output : Bool)
        (imatrix_verbosity : Int) (imatrix_no_ppl : Bool)
        (imatrix_chunk imatrix_output_frequency imatrix_save_frequency : Int)
        (imatrix_in_files : String) (imatrix_ngl : Int),
      Action.createRepo (username ++ "/" ++ gguf_base model_id ++ "-i1-GGUF") ∈
        (quantize_gguf env model_id additional_param hf_token username
          true imatrix_file calibration_file recompute_imatrix
          imatrix_process_output imatrix_verbosity imatrix_no_ppl
          imatrix_chunk imatrix_output_frequency imatrix_save_frequency
          imatrix_in_files imatrix_ngl).1.acts) ∧
    (∀ (env : Env) (model_id additional_param hf_token username imatrix_file
        calibration_file : String) (recompute_imatrix imatrix_process_output : Bool)
        (imatrix_verbosity : Int) (imatrix_no_ppl : Bool)
        (imatrix_chunk imatrix_output_frequency imatrix_save_frequency : Int)
        (imatrix_in_files : String) (imatrix_ngl : Int),
      Action.createRepo (username ++ "/" ++ gguf_base model_id ++ "-GGUF") ∈
        (quantize_gguf env model_id additional_param hf_token username
          false imatrix_file calibration_file recompute_imatrix
          imatrix_process_output imatrix_verbosity imatrix_no_ppl
          imatrix_chunk imatrix_output_frequency imatrix_save_frequency
          imatrix_in_files imatrix_ngl).1.acts) := by
  refine ⟨fun folder base m => rfl, fun folder base m => rfl,
    gguf_quant_loop_acts_imatrix, ?_, ?_⟩
  · intro env model_id additional_param hf_token username imatrix_file calibration_file
      recompute_imatrix imatrix_process_output imatrix_verbosity imatrix_no_ppl
      imatrix_chunk imatrix_output_frequency imatrix_save_frequency
      imatrix_in_files imatrix_ngl
    rw [quantize_gguf_acts]
    refine List.mem_append_right _ ?_
    have h := upload_quant_createRepo_mem env model_id (gguf_base model_id)
      "i1-GGUF" (gguf_save_folder (gguf_base model_id)) hf_token username
    rw [format_i1_gguf] at h
    rw [show username ++ "/" ++ gguf_base model_id ++ "-i1-GGUF" =
        username ++ "/" ++ gguf_base model_id ++ "-" ++ "i1-GGUF" by
      rw [str_append_assoc (username ++ "/" ++ gguf_base model_id) "-" "i1-GGUF"]
      congr 1]
    exact h
  · intro env model_id additional_param hf_token username imatrix_file calibration_file
      recompute_imatrix imatrix_process_output imatrix_verbosity imatrix_no_ppl
      imatrix_chunk imatrix_output_frequency imatrix_save_frequency
      imatrix_in_files imatrix_ngl
    rw [quantize_gguf_acts]
    refine List.mem_append_right _ ?_
    have h := upload_quant_createRepo_mem env model_id (gguf_base model_id)
      "GGUF" (gguf_save_folder (gguf_base model_id)) hf_token username
    rw [format_gguf] at h
    rw [show username ++ "/" ++ gguf_base model_id ++ "-GGUF" =
        username ++ "/" ++ gguf_base model_id ++ "-" ++ "GGUF" by
      rw [str_append_assoc (username ++ "/" ++ gguf_base model_id) "-" "GGUF"]
      congr 1]
    exact h

/-- Witness for C10: no hypothesis of the theorem needs discharging, but
the naming facts are exercised at the concrete spec example. -/
theorem c10_witness :
    gguf_qtype_path "quantized_models/modelA-GGUF" "modelA" true "Q4_K_M" =
      "quantized_models/modelA-GGUF" ++ "/" ++ (pyLower "modelA" ++ "-i1-" ++ "Q4_K_M" ++ ".gguf") ∧
    Action.createRepo ("u" ++ "/" ++ gguf_base "org/modelA" ++ "-i1-GGUF") ∈
      (quantize_gguf c4_env "org/modelA" "Q4_K_M" "t" "u"
        true "gguf/imatrix.dat" "gguf/calibration_datav3.txt" false
        false 1 false 64 10 0 "" 80).1.acts :=
  ⟨c10_imatrix_naming.1 "quantized_models/modelA-GGUF" "modelA" "Q4_K_M",
    c10_imatrix_naming.2.2.2.1 c4_env "org/modelA" "Q4_K_M" "t" "u"
      "gguf/imatrix.dat" "gguf/calibration_datav3.txt" false false 1 false 64 10 0 "" 80⟩

/-! ## C2: artifact skip logic -/

/-- Environment for the C2 counterexample: every path exists on disk. -/
def c2_env : Env := {
  pathExists := fun _ => true
  list_repo_files := fun _ => .ok []
  snapshot_download := fun _ => .ok "models/modelA"
  run := fun _ => ([], "", 0)
  sys_executable := "py"
  has_transformers := false
  gptq_external := .error "no gpu"
  awq_external := .error "no gpu"
  hqq_external := .error "no gpu"
  card_gen := .ok ()
  create_repo := fun _ => .ok ()
  upload_folder := fun _ _ => .ok ()
  rmtree := fun _ => none
  listdir := fun _ => [] }

/-- C2 counterexample: with recomputation not forced and every artifact
present on disk — in particular the per-type output file
quantized_models/modelA-GGUF/modela-Q4_K_M.gguf — the GGUF executor
still issues the llama-quantize invocation for that type, re-running a
step whose output artifact already exists. (The conversion step is
correctly skipped in the same run.) -/
theorem c2_counterexample :
    c2_env.pathExists (gguf_qtype_path (gguf_save_folder (gguf_base "org/modelA"))
      (gguf_base "org/modelA") false (pyUpper (pyStrip "Q4_K_M"))) = true ∧
    Action.runCmd (gguf_quant_cmd c2_env false "gguf/imatrix.dat"
        (gguf_save_folder (gguf_base "org/modelA")) (gguf_base "org/modelA")
        (gguf_out_file (gguf_base "org/modelA")) (pyUpper (pyStrip "Q4_K_M"))) ∈
      (quantize_gguf c2_env "org/modelA" "Q4_K_M" "t" "u"
        false "gguf/imatrix.dat" "gguf/calibration_datav3.txt" false
        false 1 false 64 10 0 "" 80).1.acts := by
  constructor
  · rfl
  · decide

/-- C2 (amended): the conversion step runs exactly when its bf16 output
file is absent; the importance-matrix step is skipped when its output
file exists and recomputation is not forced, and runs when recomputation
is forced; the executor action trace is the concatenation of the four
stages; but the per-quant-type invocations are issued unconditionally —
their characterization depends only on the token list and the imatrix
flag, never on the existence of the per-type output file. -/
theorem c2_skip_logic :
    (∀ (env : Env) (model_dir out_file : String), env.pathExists out_file = true →
      (gguf_conversion_step env model_dir out_file).acts = []) ∧
    (∀ (env : Env) (model_dir out_file : String), env.pathExists out_file = false →
      (gguf_conversion_step env model_dir out_file).acts =
        [Action.runCmd (build_llama_cmd env "convert_hf_to_gguf.py"
          [model_dir, "--outtype", "bf16", "--outfile", out_file])]) ∧
    (∀ (env : Env) (use_imatrix : Bool) (out_file calibration_file imatrix_file : String)
        (po : Bool) (v : Int) (np : Bool) (ch oq sq : Int) (inf : String) (ngl : Int),
      env.pathExists imatrix_file = true →
      (gguf_imatrix_step env use_imatrix out_file calibration_file imatrix_file
        false po v np ch oq sq inf ngl).acts = []) ∧
    (∀ (env : Env) (out_file calibration_file imatrix_file : String)
        (po : Bool) (v : Int) (np : Bool) (ch oq sq : Int) (inf : String) (ngl : Int),
      (gguf_imatrix_step env true out_file calibration_file imatrix_file
        true po v np ch oq sq inf ngl).acts =
        [Action.runCmd (imatrix_cmd env out_file calibration_file imatrix_file
          po v np ch oq sq (gguf_in_files_list inf) ngl)]) ∧
    (∀ (env : Env) (model_id additional_param hf_token username : String)
        (use_imatrix : Bool) (imatrix_file calibration_file : String)
        (recompute_imatrix po : Bool) (v : Int) (np : Bool) (ch oq sq : Int)
        (inf : String) (ngl : Int),
      (quantize_gguf env model_id additional_param hf_token username
          use_imatrix imatrix_file calibration_file recompute_imatrix
          po v np ch oq sq inf ngl).1.acts =
        (gguf_conversion_step env (pathJoin "models" (gguf_base model_id))
            (gguf_out_file (gguf_base model_id))).acts
          ++ (gguf_imatrix_step env use_imatrix (gguf_out_file (gguf_base model_id))
              calibration_file imatrix_file recompute_imatrix po v np ch oq sq inf ngl).acts
          ++ (gguf_quant_loop env (gguf_base model_id)
              (gguf_save_folder (gguf_base model_id)) (gguf_out_file (gguf_base model_id))
              use_imatrix imatrix_file (pySplit ',' (pyRemoveSpaces additional_param))).acts
          ++ (upload_quant env model_id (gguf_base model_id)
              (if use_imatrix then "i1-GGUF" else "GGUF")
              (gguf_save_folder (gguf_base model_id)) hf_token username).2) ∧
    (∀ (env : Env) (base folder out imf : String) (toks : List String),
      (gguf_quant_loop env base folder out false imf toks).acts =
        (toks.filter fun m => !(startswith (pyUpper (pyStrip m)) "IQ")).map
          fun m => Action.runCmd
            (gguf_quant_cmd env false imf folder base out (pyUpper (pyStrip m)))) := by
  refine ⟨?_, ?_, ?_, ?_, ?_, gguf_quant_loop_acts_no_imatrix⟩
  · intro env model_dir out_file h
    simp [gguf_conversion_step, h]
  · intro env model_dir out_file h
    simp [gguf_conversion_step, run_command, h]
  · intro env use_imatrix out_file calibration_file imatrix_file po v np ch oq sq inf ngl h
    cases use_imatrix <;> simp [gguf_imatrix_step, h]
  · intro env out_file calibration_file imatrix_file po v np ch oq sq inf ngl
    simp [gguf_imatrix_step, compute_imatrix_file, run_command]
  · intro env model_id additional_param hf_token username use_imatrix imatrix_file
      calibration_file recompute_imatrix po v np ch oq sq inf ngl
    exact quantize_gguf_acts env model_id additional_param hf_token username
      use_imatrix imatrix_file calibration_file recompute_imatrix po v np ch oq sq inf ngl

/-- Witness for C2 (amended): conversion and imatrix steps are skipped
against a fully-present disk, and the forced-recompute branch runs. -/
theorem c2_witness :
    (gguf_conversion_step c2_env "models/modelA"
      (gguf_out_file (gguf_base "org/modelA"))).acts = [] ∧
    (gguf_imatrix_step c2_env true "out.gguf" "cal.txt" "gguf/imatrix.dat"
      false false 1 false 64 10 0 "" 80).acts = [] ∧
    (gguf_imatrix_step c2_env true "out.gguf" "cal.txt" "gguf/imatrix.dat"
      true false 1 false 64 10 0 "" 80).acts =
      [Action.runCmd (imatrix_cmd c2_env "out.gguf" "cal.txt" "gguf/imatrix.dat"
        false 1 false 64 10 0 (gguf_in_files_list "") 80)] :=
  ⟨c2_skip_logic.1 c2_env "models/modelA" (gguf_out_file (gguf_base "org/modelA")) rfl,
    c2_skip_logic.2.2.1 c2_env true "out.gguf" "cal.txt" "gguf/imatrix.dat"
      false 1 false 64 10 0 "" 80 rfl,
    c2_skip_logic.2.2.2.1 c2_env "out.gguf" "cal.txt" "gguf/imatrix.dat"
      false 1 false 64 10 0 "" 80⟩

/-! ## C3: default substitution in the parameter resolvers -/

/-- C3 counterexample: resolving the GPTQ parameters from the empty raw
string substitutes the full default tuple but records NO warning (the
warning list is empty), refuting the claim that an empty raw string
records a warning. -/
theorem c3_counterexample :
    gptq_resolve "" = .ok (gptq_defaults, ([] : List String)) ∧
    gptq_defaults = (4, 128, 1 / 10) := by
  constructor
  · rfl
  · rfl

/-- C3 (amended): for each tuple-parameter method (GPTQ, AWQ, HQQ), an
empty raw string substitutes the full default tuple silently, and a
nonempty raw string with fewer fields than required substitutes the full
default tuple with exactly one warning — never a partial merge. For
GPTQ, the empty string yields exactly (4, 128, 0.1) and the string 8,64
yields the same default tuple plus one warning. -/
theorem c3_default_substitution :
    (∀ s : String, pyStrip s = "" → gptq_resolve s = .ok (gptq_defaults, [])) ∧
    (∀ s : String, pyStrip s ≠ "" → ((pySplit ',' s).map pyStrip).length < 3 →
      gptq_resolve s = .ok (gptq_defaults, [gptq_warn])) ∧
    gptq_resolve "" = .ok ((4, 128, 1 / 10), []) ∧
    gptq_resolve "8,64" = .ok ((4, 128, 1 / 10), [gptq_warn]) ∧
    (∀ s : String, pyStrip s = "" → awq_resolve s = .ok (awq_defaults, [])) ∧
    (∀ s : String, pyStrip s ≠ "" → ((pySplit ',' s).map pyStrip).length < 4 →
      awq_resolve s = .ok (awq_defaults, [awq_warn])) ∧
    (∀ s : String, pyStrip s = "" → hqq_resolve s = .ok (hqq_defaults, [])) ∧
    (∀ s : String, pyStrip s ≠ "" → ((pySplit ',' s).map pyStrip).length < 2 →
      hqq_resolve s = .ok (hqq_defaults, [hqq_warn])) := by
  refine ⟨?_, ?_, rfl, rfl, ?_, ?_, ?_, ?_⟩
  · intro s h
    unfold gptq_resolve
    rw [if_neg (by simp [h])]
  · intro s hne hlen
    unfold gptq_resolve
    rw [if_pos hne]
    rcases hp : (pySplit ',' s).map pyStrip with _ | ⟨p0, _ | ⟨p1, _ | ⟨p2, rest⟩⟩⟩
    · rfl
    · rfl
    · rfl
    · rw [hp] at hlen
      simp only [List.length_cons] at hlen
      omega
  · intro s h
    unfold awq_resolve
    rw [if_neg (by simp [h])]
  · intro s hne hlen
    unfold awq_resolve
    rw [if_pos hne]
    rcases hp : (pySplit ',' s).map pyStrip
      with _ | ⟨p0, _ | ⟨p1, _ | ⟨p2, _ | ⟨p3, rest⟩⟩⟩⟩
    · rfl
    · rfl
    · rfl
    · rfl
    · rw [hp] at hlen
      simp only [List.length_cons] at hlen
      omega
  · intro s h
    unfold hqq_resolve
    rw [if_neg (by simp [h])]
  · intro s hne hlen
    unfold hqq_resolve
    rw [if_pos hne]
    rcases hp : (pySplit ',' s).map pyStrip with _ | ⟨p0, _ | ⟨p1, rest⟩⟩
    · rfl
    · rfl
    · rw [hp] at hlen
      simp only [List.length_cons] at hlen
      omega

/-- Witness for C3 (amended) at the inputs of the spec examples. -/
theorem c3_witness :
    gptq_resolve "" = .ok (gptq_defaults, []) ∧
    gptq_resolve "8,64" = .ok (gptq_defaults, [gptq_warn]) ∧
    awq_resolve "4, 128" = .ok (awq_defaults, [awq_warn]) ∧
    hqq_resolve "2" = .ok (hqq_defaults, [hqq_warn]) :=
  ⟨c3_default_substitution.1 "" rfl,
    c3_default_substitution.2.1 "8,64" (by decide) (by decide),
    c3_default_substitution.2.2.2.2.2.1 "4, 128" (by decide) (by decide),
    c3_default_substitution.2.2.2.2.2.2.2 "2" (by decide) (by decide)⟩

/-! ## C8: cleanup scoping -/

theorem cleanup_quant_loop_acts (env : Env) (base : String) :
    ∀ fs : List String,
      (cleanup_quant_loop env base fs).acts =
        (fs.filter fun f => startswith f (base ++ "-")).map
          fun f => Action.rmtree (pathJoin "quantized_models" f) := by
  intro fs
  induction fs with
  | nil => rfl
  | cons f rest ih =>
    rcases h : startswith f (base ++ "-") with _ | _
    · simp [cleanup_quant_loop, h, ih]
    · rcases hr : env.rmtree (pathJoin "quantized_models" f) with _ | e <;>
        simp [cleanup_quant_loop, h, hr, ih]

theorem cleanup_quant_loop_err_mem (env : Env) (base : String) :
    ∀ (fs : List String) (f e : String), f ∈ fs → startswith f (base ++ "-") = true →
      env.rmtree (pathJoin "quantized_models" f) = some e →
      ("[ERROR] Could not delete quantized folder " ++ pathJoin "quantized_models" f
          ++ ": " ++ e ++ "\n") ∈ (cleanup_quant_loop env base fs).lines := by
  intro fs
  induction fs with
  | nil => intro f e hf; exact absurd hf (List.not_mem_nil f)
  | cons a rest ih =>
    intro f e hf hs hr
    rcases List.mem_cons.mp hf with heq | htail
    · subst heq
      simp [cleanup_quant_loop, hs, hr]
    · have hmem := ih f e htail hs hr
      simp only [cleanup_quant_loop, Trace.append_lines, List.mem_append]
      exact Or.inr hmem

theorem cleanup_model_acts (env : Env) (base : String)
    (delete_original delete_quantized : Bool) :
    (cleanup_model env base delete_original delete_quantized).acts =
      (if delete_original && env.pathExists (pathJoin "models" base) then
          [Action.rmtree (pathJoin "models" base)]
        else [])
        ++ (if delete_quantized && env.pathExists "quantized_models" then
            ((env.listdir "quantized_models").filter
                fun f => startswith f (base ++ "-")).map
              fun f => Action.rmtree (pathJoin "quantized_models" f)
          else []) := by
  unfold cleanup_model
  cases delete_original <;> cases delete_quantized <;>
    rcases h1 : env.pathExists (pathJoin "models" base) with _ | _ <;>
    rcases h2 : env.pathExists "quantized_models" with _ | _ <;>
    rcases hr : env.rmtree (pathJoin "models" base) with _ | e <;>
    simp [h1, h2, hr, cleanup_quant_loop_acts]

/-- C8: cleanup deletes exactly the intended directories — the
directories under quantized_models whose name starts with the base name
followed by a dash (when delete_quantized is set, and none otherwise)
plus models/{base} (when delete_original is set and it exists); a
failing deletion is recorded as an error line; and on the batch path the
model iteration finishes with err = none, its actions ending with the
cleanup actions, so deletion failures never abort the batch. -/
theorem c8_cleanup_scope :
    (∀ (env : Env) (base : String) (delete_original delete_quantized : Bool),
      (cleanup_model env base delete_original delete_quantized).acts =
        (if delete_original && env.pathExists (pathJoin "models" base) then
            [Action.rmtree (pathJoin "models" base)]
          else [])
          ++ (if delete_quantized && env.pathExists "quantized_models" then
              ((env.listdir "quantized_models").filter
                  fun f => startswith f (base ++ "-")).map
                fun f => Action.rmtree (pathJoin "quantized_models" f)
            else [])) ∧
    (∀ (env : Env) (base : String) (delete_original : Bool) (f e : String),
      env.pathExists "quantized_models" = true →
      f ∈ env.listdir "quantized_models" → startswith f (base ++ "-") = true →
      env.rmtree (pathJoin "quantized_models" f) = some e →
      ("[ERROR] Could not delete quantized folder " ++ pathJoin "quantized_models" f
          ++ ": " ++ e ++ "\n") ∈ (cleanup_model env base delete_original true).lines) ∧
    (∀ (env : Env) (a : UIArgs) (fl0 model_id : String),
      (selected_methods a).isEmpty = false →
      (methods_loop env a model_id
        (yieldLines (fl0 ++ ("\n=== Processing model: " ++ model_id ++ " ===\n"))
          (download_model env model_id a.hf_token).lines).1 (selected_methods a)).err = none →
      (processModel env a fl0 model_id).err = none ∧
      (processModel env a fl0 model_id).acts =
        (download_model env model_id a.hf_token).acts
          ++ (methods_loop env a model_id
              (yieldLines (fl0 ++ ("\n=== Processing model: " ++ model_id ++ " ===\n"))
                (download_model env model_id a.hf_token).lines).1 (selected_methods a)).acts
          ++ (cleanup_model env (pyLast (pySplit '/' model_id))
              a.delete_original a.delete_quantized).acts) := by
  refine ⟨cleanup_model_acts, ?_, ?_⟩
  · intro env base delete_original f e hq hf hs hr
    have hmem := cleanup_quant_loop_err_mem env base (env.listdir "quantized_models")
      f e hf hs hr
    unfold cleanup_model
    simp only [if_pos rfl, hq, if_true, Trace.append_lines, List.mem_append]
    exact Or.inr (by simpa [hq] using hmem)
  · intro env a fl0 model_id hsel herr
    unfold processModel
    simp only [hsel, Bool.false_eq_true, if_false, herr]
    exact ⟨trivial, trivial⟩

/-- Environment for the C8 witness: quantized_models holds foo-GGUF,
foo-AWQ and bar-GGUF; deleting foo-AWQ fails. -/
def c8_env : Env := {
  pathExists := fun p => p = "models/foo" || p = "quantized_models"
  list_repo_files := fun _ => .ok []
  snapshot_download := fun _ => .ok "models/foo"
  run := fun _ => ([], "", 0)
  sys_executable := "py"
  has_transformers := false
  gptq_external := .error "no gpu"
  awq_external := .error "no gpu"
  hqq_external := .error "no gpu"
  card_gen := .ok ()
  create_repo := fun _ => .ok ()
  upload_folder := fun _ _ => .ok ()
  rmtree := fun p => if p = "quantized_models/foo-AWQ" then some "EPERM" else none
  listdir := fun _ => ["foo-GGUF", "foo-AWQ", "bar-GGUF"] }

/-- Witness for C8: both foo-prefixed directories (and only they, plus
the original models/foo) are deleted; bar-GGUF is untouched; the failed
foo-AWQ deletion is recorded as an error line. -/
theorem c8_witness :
    (cleanup_model c8_env "foo" true true).acts =
      [Action.rmtree "models/foo", Action.rmtree "quantized_models/foo-GGUF",
        Action.rmtree "quantized_models/foo-AWQ"] ∧
    ("[ERROR] Could not delete quantized folder " ++ pathJoin "quantized_models" "foo-AWQ"
        ++ ": " ++ "EPERM" ++ "\n") ∈ (cleanup_model c8_env "foo" true true).lines := by
  constructor
  · rw [c8_cleanup_scope.1 c8_env "foo" true true]
    decide
  · exact c8_cleanup_scope.2.1 c8_env "foo" true "foo-AWQ" "EPERM"
      (by decide) (by decide) (by decide) (by decide)

/-! ## C7: transcript monotonicity

The invariant is phrased with strLe (string-prefix extension) chains:
fl :: snaps ++ [fl2] is a chain when every yielded snapshot extends the
previous one, the first extends the incoming log and the final log
extends the last snapshot. The chains compose by gluing. -/

theorem chain_two {x y : String} (h : strLe x y) : List.Chain' strLe [x, y] :=
  List.chain'_cons.mpr ⟨h, List.chain'_singleton y⟩

theorem chain_yield_once {x : String} (y : String) (h : strLe x y) :
    List.Chain' strLe (x :: [y] ++ [y]) :=
  List.chain'_cons.mpr ⟨h, chain_two (strLe_refl y)⟩

theorem chain_shift {x y : String} (h : strLe x y) :
    ∀ {s : List String} {g : String}, List.Chain' strLe (y :: s ++ [g]) →
      List.Chain' strLe (x :: s ++ [g]) := by
  intro s g hc
  cases s with
  | nil => exact chain_two (strLe_trans h (List.chain'_cons.mp hc).1)
  | cons a s' =>
    have hc' := List.chain'_cons.mp hc
    exact List.chain'_cons.mpr ⟨strLe_trans h hc'.1, hc'.2⟩

theorem chain_glue : ∀ (s : List String) {x m : String} {t : List String} {g : String},
    List.Chain' strLe (x :: s ++ [m]) → List.Chain' strLe (m :: t ++ [g]) →
    List.Chain' strLe (x :: (s ++ t) ++ [g]) := by
  intro s
  induction s with
  | nil =>
    intro x m t g h1 h2
    exact chain_shift (List.chain'_cons.mp h1).1 h2
  | cons a s' ih =>
    intro x m t g h1 h2
    have h1' := List.chain'_cons.mp h1
    exact List.chain'_cons.mpr ⟨h1'.1, ih h1'.2 h2⟩

theorem yieldLines_chain (ls : List String) : ∀ fl : String,
    List.Chain' strLe (fl :: (yieldLines fl ls).2 ++ [(yieldLines fl ls).1]) := by
  induction ls with
  | nil => intro fl; exact chain_two (strLe_refl fl)
  | cons l rest ih =>
    intro fl
    show List.Chain' strLe (fl :: ((fl ++ l) :: (yieldLines (fl ++ l) rest).2)
      ++ [(yieldLines (fl ++ l) rest).1])
    exact List.chain'_cons.mpr ⟨strLe_append fl l, ih (fl ++ l)⟩

theorem methods_loop_chain (env : Env) (a : UIArgs) (model_id : String) :
    ∀ (ms : List (String × String)) (fl : String),
      List.Chain' strLe (fl :: (methods_loop env a model_id fl ms).snaps
        ++ [(methods_loop env a model_id fl ms).fl]) := by
  intro ms
  induction ms with
  | nil => intro fl; exact chain_two (strLe_refl fl)
  | cons mp rest ih =>
    obtain ⟨method, param⟩ := mp
    intro fl
    simp only [methods_loop]
    by_cases hk : knownMethod method = true
    · rw [if_pos hk]
      rcases hg : (run_method env a model_id method param).2 with _ | e
      · simp only [hg]
        refine List.chain'_cons.mpr ⟨strLe_append fl _, ?_⟩
        exact chain_glue _
          (yieldLines_chain (run_method env a model_id method param).1.lines _)
          (ih _)
      · simp only [hg]
        refine List.chain'_cons.mpr ⟨strLe_append fl _, ?_⟩
        exact yieldLines_chain (run_method env a model_id method param).1.lines _
    · rw [if_neg hk]
      refine List.chain'_cons.mpr ⟨strLe_append fl _, ?_⟩
      refine List.chain'_cons.mpr ⟨strLe_append _ _, ?_⟩
      exact ih _

theorem processModel_chain (env : Env) (a : UIArgs) (fl0 model_id : String) :
    List.Chain' strLe (fl0 :: (processModel env a fl0 model_id).snaps
      ++ [(processModel env a fl0 model_id).fl]) := by
  unfold processModel
  by_cases hsel : (selected_methods a).isEmpty = true
  · simp only [hsel, if_true]
    refine chain_shift
      (strLe_append fl0 ("\n=== Processing model: " ++ model_id ++ " ===\n")) ?_
    refine chain_glue _
      (yieldLines_chain (download_model env model_id a.hf_token).lines _) ?_
    exact chain_yield_once _ (strLe_append _
      "[ERROR] No quantization method selected for model. Please select at least one method.\n")
  · simp only [hsel, if_false]
    rcases herr : (methods_loop env a model_id
        (yieldLines (fl0 ++ ("\n=== Processing model: " ++ model_id ++ " ===\n"))
          (download_model env model_id a.hf_token).lines).1 (selected_methods a)).err
      with _ | e
    · simp only [herr]
      refine chain_shift
        (strLe_append fl0 ("\n=== Processing model: " ++ model_id ++ " ===\n")) ?_
      have hglued := chain_glue _
        (yieldLines_chain (download_model env model_id a.hf_token).lines
          (fl0 ++ ("\n=== Processing model: " ++ model_id ++ " ===\n")))
        (chain_glue _ (methods_loop_chain env a model_id (selected_methods a) _)
          (chain_yield_once _ (strLe_append _ (String.join
            (cleanup_model env (pyLast (pySplit '/' model_id))
              a.delete_original a.delete_quantized).lines))))
      rw [← List.append_assoc] at hglued
      exact hglued
    · simp only [herr]
      refine chain_shift
        (strLe_append fl0 ("\n=== Processing model: " ++ model_id ++ " ===\n")) ?_
      exact chain_glue _
        (yieldLines_chain (download_model env model_id a.hf_token).lines _)
        (methods_loop_chain env a model_id (selected_methods a) _)

theorem process_models_chain (env : Env) (a : UIArgs) :
    ∀ (ms : List String) (fl : String),
      List.Chain' strLe (fl :: (process_models env a fl ms).snaps
        ++ [(process_models env a fl ms).fl]) := by
  intro ms
  induction ms with
  | nil => intro fl; exact chain_two (strLe_refl fl)
  | cons m rest ih =>
    intro fl
    simp only [process_models]
    rcases herr : (processModel env a fl m).err with _ | e
    · simp only [herr]
      exact chain_glue _ (processModel_chain env a fl m) (ih _)
    · simp only [herr]
      exact processModel_chain env a fl m

/-- C7: across one orchestrator run, consecutive yielded transcripts
form a prefix chain — the transcript at step k is a string prefix of the
transcript at step k+1; it is only ever appended to. -/
theorem c7_transcript_monotone (env : Env) (a : UIArgs) :
    List.Chain' strLe (quant_tavern_ui env a).snaps := by
  unfold quant_tavern_ui
  have h := process_models_chain env a
    (((pySplit '\n' a.model_ids).map pyStrip).filter fun m => m ≠ "")
    "=== Starting SpongeQuant Quantization Process ===\n"
  rcases herr : (process_models env a "=== Starting SpongeQuant Quantization Process ===\n"
      (((pySplit '\n' a.model_ids).map pyStrip).filter fun m => m ≠ "")).err with _ | e
  · simp only [herr]
    have hext := chain_glue _ h (chain_yield_once _ (strLe_append
      (process_models env a "=== Starting SpongeQuant Quantization Process ===\n"
        (((pySplit '\n' a.model_ids).map pyStrip).filter fun m => m ≠ "")).fl
      "\n=== Quantization Process Completed ===\n"))
    exact (hext.tail).left_of_append
  · simp only [herr]
    exact (h.tail).left_of_append

/-! ## C1: exception propagation out of the GPTQ executor -/

/-- Environment for C1: transformers is available, the network is down
(irrelevant to the claim), every subprocess succeeds. -/
def c1_env : Env := {
  pathExists := fun _ => false
  list_repo_files := fun _ => .error "offline"
  snapshot_download := fun _ => .error "offline"
  run := fun _ => ([], "", 0)
  sys_executable := "py"
  has_transformers := true
  gptq_external := .ok []
  awq_external := .ok []
  hqq_external := .ok []
  card_gen := .ok ()
  create_repo := fun _ => .ok ()
  upload_folder := fun _ _ => .ok ()
  rmtree := fun _ => none
  listdir := fun _ => [] }

/-- Inputs for C1: two models, GPTQ selected with a non-integer bits
field, HQQ also selected (and due to run after GPTQ). -/
def c1_args : UIArgs := {
  model_ids := "org/m1\norg/m2"
  hf_token := "t"
  username := "u"
  gguf_sel := false
  gguf_param := ""
  gptq_sel := true
  gptq_param := "x,1,1"
  exllamav2_sel := false
  exllamav2_param := ""
  awq_sel := false
  awq_param := ""
  hqq_sel := true
  hqq_param := "2,128"
  enable_imatrix := false
  imatrix_file := "gguf/imatrix.dat"
  calibration_file := "gguf/calibration_datav3.txt"
  recompute_imatrix := false
  imatrix_process_output := false
  imatrix_verbosity := 1
  imatrix_no_ppl := false
  imatrix_chunk := 64
  imatrix_output_frequency := 10
  imatrix_save_frequency := 0
  imatrix_in_files := ""
  imatrix_ngl := 80
  delete_original := false
  delete_quantized := false }

/-- C1 (recording the code bug): quantize_gptq parses its bits field
with int() outside any try/except, and quant_tavern_ui consumes the
executor generators without any try/except of its own, so the ValueError
raised on the non-integer bits field x escapes and terminates the whole
batch loop: the run ends with that exception, and the only action ever
performed is the first model download attempt — the HQQ method selected
for the same model and the entire second model are never reached, and no
transcript line reports the failure. The other executors (ExLlamaV2,
AWQ, HQQ) wrap their whole body in try/except as the claim describes;
GPTQ does not. -/
theorem c1_gptq_parse_failure_terminates_batch :
    (quant_tavern_ui c1_env c1_args).err = some (int_error "x") ∧
    (quant_tavern_ui c1_env c1_args).acts =
      [Action.snapshotDownload "org/m1" "models/m1"] := by
  constructor
  · rfl
  · rfl

end SpongeQuant
